import Mathlib

/-!
# Verification of the ziplan backend (`src/server.js`)

A shallow embedding of the Express/Mongo backend in `server.js`: JSON request
bodies are modelled by `JSValue` (with JavaScript truthiness and `== null`
semantics), the Mongo collections by lists of records, bcrypt and jsonwebtoken
by idealized executable models, and each route handler by a pure function from
the request plus the ambient stores to a response plus the updated stores.
-/

namespace Ziplan

/-- A JavaScript/JSON value as seen by the route handlers after
`express.json()` parsing (`undef` stands for an absent field). Numbers are
modelled as integers, which covers every value the claims exercise. -/
inductive JSValue where
  | undef : JSValue
  | nullv : JSValue
  | bool : Bool → JSValue
  | num : Int → JSValue
  | str : String → JSValue
  | arr : List JSValue → JSValue
  | obj : List (String × JSValue) → JSValue
deriving Repr

namespace JSValue

/-- JavaScript truthiness: `undefined`, `null`, `false`, `0` and `""` are
falsy; every array and object (even empty) is truthy. -/
def truthy : JSValue → Bool
  | .undef => false
  | .nullv => false
  | .bool b => b
  | .num n => n != 0
  | .str s => s ≠ ""
  | .arr _ => true
  | .obj _ => true

/-- JavaScript loose equality against `null` (`v == null`): true exactly for
`null` and `undefined`. -/
def eqNull : JSValue → Bool
  | .undef => true
  | .nullv => true
  | _ => false

/-- Whether `v` is `null` or `undefined` (the values on which a property access
throws a `TypeError`). -/
def isNullish : JSValue → Bool
  | .undef => true
  | .nullv => true
  | _ => false

/-- Model of `Array.isArray(v)`. -/
def isArray : JSValue → Bool
  | .arr _ => true
  | _ => false

/-- The element list of an array value (`[]` otherwise; handlers only call
this after an `Array.isArray` check). -/
def asArray : JSValue → List JSValue
  | .arr xs => xs
  | _ => []

/-- Property access `v.k` on a non-nullish value: field lookup on objects,
`undefined` on primitives and for missing fields. -/
def get (v : JSValue) (k : String) : JSValue :=
  match v with
  | .obj fs => ((fs.find? (fun f => f.1 = k)).map (fun f => f.2)).getD undef
  | _ => undef

/-- Index access `v[i]` on a non-nullish value: element lookup on arrays,
`undefined` out of range and on non-arrays. -/
def idx (v : JSValue) (i : Nat) : JSValue :=
  match v with
  | .arr xs => (xs.get? i).getD undef
  | _ => undef

/-- Optional chaining `v?.…`: short-circuits to `undefined` on `null` or
`undefined`, otherwise applies the access. -/
def optChain (v : JSValue) (f : JSValue → JSValue) : JSValue :=
  match v with
  | .undef => .undef
  | .nullv => .undef
  | v => f v

/-- Model of `String(v)`, as used by template-literal interpolation. -/
def display : JSValue → String
  | .undef => "undefined"
  | .nullv => "null"
  | .bool b => cond b "true" "false"
  | .num n => toString n
  | .str s => s
  | .arr _ => ""
  | .obj _ => "[object Object]"

/-- Model of `a || b` on JS values: `a` if truthy, else `b`. -/
def orElse (a b : JSValue) : JSValue :=
  if truthy a then a else b

end JSValue

mutual
/-- Model of `JSON.stringify` (for the values reachable here: no escaping is needed
because no claim involves special characters in keys or strings). -/
def jsonStringify : JSValue → String
  | .undef => "null"
  | .nullv => "null"
  | .bool b => cond b "true" "false"
  | .num n => toString n
  | .str s => "\"" ++ s ++ "\""
  | .arr xs => "[" ++ jsonStringifyList xs ++ "]"
  | .obj fs => "\x7b" ++ jsonStringifyFields fs ++ "\x7d"

/-- Comma-joined rendering of a JSON array's elements. -/
def jsonStringifyList : List JSValue → String
  | [] => ""
  | [x] => jsonStringify x
  | x :: xs => jsonStringify x ++ "," ++ jsonStringifyList xs

/-- Comma-joined rendering of a JSON object's fields. -/
def jsonStringifyFields : List (String × JSValue) → String
  | [] => ""
  | [f] => "\"" ++ f.1 ++ "\":" ++ jsonStringify f.2
  | f :: fs => "\"" ++ f.1 ++ "\":" ++ jsonStringify f.2 ++ "," ++ jsonStringifyFields fs
end

/-- Embed a list of strings as a JS array of strings. -/
def jsStrList (l : List String) : JSValue :=
  .arr (l.map .str)

/-- Truthiness of an optional string body field (`!email` in JS): falsy when
the field is absent or the empty string. -/
def strFalsy : Option String → Bool
  | none => true
  | some s => s = ""

/-! ## Idealized models of the dependencies (bcryptjs, jsonwebtoken) -/

/-- The result of `bcrypt.hash(pw, salt)`: an idealized collision-free salted
hash recording the salt, the cost factor of `bcrypt.genSalt` and the hashed
password. The route code treats hashes as opaque values compared only via
`bcrypt.compare`, which this model supports exactly. -/
structure Hashed where
  cost : Nat
  salt : Nat
  pw : String
deriving DecidableEq, Repr

/-- Model of `bcrypt.hash(password, salt)` where `salt = bcrypt.genSalt(10)`. -/
def bcryptHash (password : String) (salt : Nat) : Hashed :=
  ⟨10, salt, password⟩

/-- Model of `bcrypt.compare(password, hash)`. -/
def bcryptCompare (password : String) (h : Hashed) : Bool :=
  password = h.pw

/-- A bearer token as seen by `jsonwebtoken`: either a well-formed token
signed with some secret, carrying a user id and issued-at/expiry times, or a
string that does not parse as a token at all. -/
inductive Token where
  | signed : Nat → String → Nat → Nat → Token
  | malformed : String → Token
deriving DecidableEq, Repr

/-- Model of `jwt.sign({id}, secret, {expiresIn: "7d"})` at time `now` (seconds):
expiry is exactly 7 days after issuance. -/
def jwtSign (id : Nat) (secret : String) (now : Nat) : Token :=
  .signed id secret now (now + 7 * 24 * 60 * 60)

/-- Model of `jwt.verify(token, secret)` at time `now`: returns the decoded id, or
`none` when the token is malformed, signed with a different secret, or
expired (in which case the real library throws). -/
def jwtVerify (t : Token) (secret : String) (now : Nat) : Option Nat :=
  match t with
  | .signed id s _ exp => if s = secret ∧ now < exp then some id else none
  | .malformed _ => none

/-! ## Stores (Mongo collections) -/

/-- A document of the `User` collection. -/
structure UserRec where
  id : Nat
  email : String
  passwordHash : Hashed
deriving DecidableEq, Repr

/-- A document of the `UserPreference` collection, holding the submitted JSON
values (the schema types them as `[String]`, `[String]`, `Number`, `Number`,
`Object`; the claims only store values already of those shapes). -/
structure PrefRecord where
  dietary : JSValue
  equipment : JSValue
  budget : JSValue
  cookingHours : JSValue
  mealTimes : JSValue
  createdAt : Nat

/-- A document of the `Recipe` collection. -/
structure RecipeRecord where
  ingredients : List JSValue
  recipeText : JSValue

/-- The JSON envelope (plus HTTP status) a route sends back:
`{success, message?, token?, recipe?}`. -/
structure ApiResponse where
  status : Nat
  success : Bool
  message : Option String
  token : Option Token
  recipe : Option JSValue

/-- Response `res.status(st).json({success:false, message})`. -/
def errResp (st : Nat) (message : String) : ApiResponse :=
  ⟨st, false, some message, none, none⟩

/-- Response `res.json({success:true, message})`. -/
def okMsg (message : String) : ApiResponse :=
  ⟨200, true, some message, none, none⟩

/-- Response `res.json({success:true, token})`. -/
def okToken (t : Token) : ApiResponse :=
  ⟨200, true, none, some t, none⟩

/-- Response `res.json({success:true, recipe})`. -/
def okRecipe (r : JSValue) : ApiResponse :=
  ⟨200, true, none, none, some r⟩

/-! ## Auth routes -/

/-- Handler for `POST /api/signup` (server.js lines 84–104). Inputs beyond the request
body: the user store, the id Mongo assigns to the new document, the salt
produced by `bcrypt.genSalt(10)`, the current time and the JWT secret.
Returns the response and the updated user store. -/
def signup (store : List UserRec) (email password : Option String)
    (freshId salt now : Nat) (secret : String) : ApiResponse × List UserRec :=
  if strFalsy email || strFalsy password then
    (errResp 400 "Email and password required", store)
  else
    let e := email.getD ""
    let p := password.getD ""
    match store.find? (fun u => u.email = e) with
    | some _ => (errResp 400 "Email already in use", store)
    | none =>
        let passwordHash := bcryptHash p salt
        (okToken (jwtSign freshId secret now), store ++ [⟨freshId, e, passwordHash⟩])

/-- Handler for `POST /api/login` (server.js lines 107–124). Reads but never writes the
user store. -/
def login (store : List UserRec) (email password : Option String)
    (now : Nat) (secret : String) : ApiResponse :=
  if strFalsy email || strFalsy password then
    errResp 400 "Email and password required"
  else
    match store.find? (fun u => u.email = email.getD "") with
    | none => errResp 400 "Invalid credentials"
    | some u =>
        if bcryptCompare (password.getD "") u.passwordHash then
          okToken (jwtSign u.id secret now)
        else
          errResp 400 "Invalid credentials"

/-- The email check of `/api/update-email`:
`!email || !email.includes("@")`. -/
def emailInvalid : Option String → Bool
  | none => true
  | some e => e = "" || !(e.data.contains '@')

/-- Handler for `POST /api/update-email` (server.js lines 194–218). `auth` is the token
extracted from the `Authorization` header (`none` when the header or its
second word is missing). A token that fails `jwt.verify` throws, which the
route's catch-all turns into a 500. -/
def updateEmail (store : List UserRec) (auth : Option Token)
    (email : Option String) (secret : String) (now : Nat) :
    ApiResponse × List UserRec :=
  match auth with
  | none => (errResp 401 "Unauthorized", store)
  | some tok =>
      match jwtVerify tok secret now with
      | none => (errResp 500 "Server error updating email", store)
      | some uid =>
          if emailInvalid email then
            (errResp 400 "Invalid email", store)
          else
            let e := email.getD ""
            match store.find? (fun u => u.email = e) with
            | some _ => (errResp 400 "Email already in use", store)
            | none =>
                (okMsg "Email updated successfully",
                  store.map (fun u => if u.id = uid then { u with email := e } else u))

/-- Outcome of `/api/update-password`: the response, the updated store, and
whether a bcrypt hash was computed while handling the request. -/
structure PwOutcome where
  resp : ApiResponse
  store : List UserRec
  hashComputed : Bool

/-- Handler for `POST /api/update-password` (server.js lines 221–242). Same token
handling as `updateEmail`; rejects `!password || password.length < 6`
before any hashing. -/
def updatePassword (store : List UserRec) (auth : Option Token)
    (password : Option String) (secret : String) (now salt : Nat) : PwOutcome :=
  match auth with
  | none => ⟨errResp 401 "Unauthorized", store, false⟩
  | some tok =>
      match jwtVerify tok secret now with
      | none => ⟨errResp 500 "Server error updating password", store, false⟩
      | some uid =>
          if strFalsy password || (password.getD "").length < 6 then
            ⟨errResp 400 "Password must be at least 6 characters", store, false⟩
          else
            let passwordHash := bcryptHash (password.getD "") salt
            ⟨okMsg "Password updated successfully",
              store.map (fun u => if u.id = uid then { u with passwordHash := passwordHash } else u),
              true⟩

/-! ## Preferences route -/

/-- Handler for `POST /api/preferences` (server.js lines 127–143). The five body fields
arrive as raw JSON values; validation is
`!dietary || !equipment || budget == null || cookingHours == null`.
On success a new document is appended (never an update of a prior one). -/
def savePreferences (store : List PrefRecord)
    (dietary equipment budget cookingHours mealTimes : JSValue) (now : Nat) :
    ApiResponse × List PrefRecord :=
  if !dietary.truthy || !equipment.truthy || budget.eqNull || cookingHours.eqNull then
    (errResp 400 "Invalid preferences data", store)
  else
    (okMsg "Preferences saved!",
      store ++ [⟨dietary, equipment, budget, cookingHours, mealTimes, now⟩])

/-! ## Recipe route -/

/-- Model of `UserPreference.findOne().sort({createdAt: -1})`: the document with the
largest `createdAt` (first such document on ties), `none` on an empty
collection. -/
def latestPref : List PrefRecord → Option PrefRecord
  | [] => none
  | r :: rs =>
      match latestPref rs with
      | none => some r
      | some b => some (if b.createdAt > r.createdAt then b else r)

/-- An element as rendered by `Array.prototype.join`: `String(el)`, except
`null` and `undefined` render as the empty string. -/
def joinElemStr (v : JSValue) : String :=
  match v with
  | .undef => ""
  | .nullv => ""
  | v => v.display

/-- Model of `xs.join(", ")` on the elements of a JS array. -/
def joinComma (xs : List JSValue) : String :=
  String.intercalate ", " (xs.map joinElemStr)

/-- Model of `prefs?.field?.join(", ")` for an array-typed preference field: `none`
(JS `undefined`) when there is no preference document or the field is
nullish; the joined string when the field is an array. (The schema types
these fields as `[String]`, so the stored value is always an array; a
non-array truthy value, which real JS would throw on, also maps to `none`
but is unreachable from `savePreferences` submissions typed per schema.) -/
def chainJoin (prefs : Option PrefRecord) (f : PrefRecord → JSValue) : Option String :=
  match prefs with
  | none => none
  | some p =>
      match f p with
      | .arr xs => some (joinComma xs)
      | _ => none

/-- Model of `x || "fallback"` where `x` is an optional string (`undefined` or a
string): the fallback replaces `undefined` and the empty string. -/
def strFallback (v : Option String) (d : String) : String :=
  match v with
  | none => d
  | some s => if s = "" then d else s

/-- Interpolation `${prefs?.field || "fallback"}`: interpolates `String(field)` when the
field exists and is truthy, the fallback otherwise. -/
def valFallback (v : Option JSValue) (d : String) : String :=
  match v with
  | none => d
  | some x => if x.truthy then x.display else d

/-- The `- Dietary:` segment: `prefs?.dietary?.join(", ") || "None"`. -/
def dietarySeg (prefs : Option PrefRecord) : String :=
  strFallback (chainJoin prefs (fun p => p.dietary)) "None"

/-- The `- Equipment available:` segment:
`prefs?.equipment?.join(", ") || "Any"`. -/
def equipmentSeg (prefs : Option PrefRecord) : String :=
  strFallback (chainJoin prefs (fun p => p.equipment)) "Any"

/-- The `- Weekly budget:` segment after the literal `$`:
`prefs?.budget || "flexible"`. -/
def budgetSeg (prefs : Option PrefRecord) : String :=
  valFallback (prefs.map (fun p => p.budget)) "flexible"

/-- The `- Cooking hours per week:` segment:
`prefs?.cookingHours || "flexible"`. -/
def hoursSeg (prefs : Option PrefRecord) : String :=
  valFallback (prefs.map (fun p => p.cookingHours)) "flexible"

/-- The `- Meal times:` segment:
`JSON.stringify(prefs?.mealTimes || {})`. -/
def mealTimesSeg (prefs : Option PrefRecord) : String :=
  jsonStringify
    (match prefs with
     | none => .obj []
     | some p => p.mealTimes.orElse (.obj []))

/-- The prompt template of `/api/recipe` (server.js lines 155–165), byte for
byte (note the trailing space after `preferences:`). -/
def buildPrompt (ingredients : List JSValue) (prefs : Option PrefRecord) : String :=
  "\nGenerate a recipe using these ingredients: " ++ joinComma ingredients ++
  ".\nConsider these preferences: \n- Dietary: " ++ dietarySeg prefs ++
  "\n- Equipment available: " ++ equipmentSeg prefs ++
  "\n- Weekly budget: $" ++ budgetSeg prefs ++
  "\n- Cooking hours per week: " ++ hoursSeg prefs ++
  "\n- Meal times: " ++ mealTimesSeg prefs ++
  "\n\nInclude a title, clear ingredients list, and step-by-step instructions.\n"

/-- Model of `data.output?.[0]?.content?.[0]?.text` (server.js line 179): every access
after the first is guarded by `?.`, so it never throws once `data` itself is
non-nullish. -/
def nestedTextLookup (data : JSValue) : JSValue :=
  ((((data.get "output").optChain (fun v => v.idx 0)).optChain
      (fun v => v.get "content")).optChain (fun v => v.idx 0)).optChain
    (fun v => v.get "text")

/-- Outcome of `/api/recipe`: the response, the prompt sent to the external
API (`none` when validation failed before the call), and the updated recipe
store. -/
structure GenOutcome where
  resp : ApiResponse
  promptSent : Option String
  recipeStore : List RecipeRecord

/-- Handler for `POST /api/recipe` (server.js lines 146–189). `apiData` is the parsed
JSON body of the external API's reply; when it is nullish the unguarded
`data.output` access throws a `TypeError`, which the catch-all turns into a
500 (after the prompt was already sent). -/
def generate (recipeStore : List RecipeRecord) (prefStore : List PrefRecord)
    (ingredients : JSValue) (apiData : JSValue) : GenOutcome :=
  if !ingredients.truthy || !ingredients.isArray then
    ⟨errResp 400 "Ingredients must be an array", none, recipeStore⟩
  else
    let ingList := ingredients.asArray
    let prompt := buildPrompt ingList (latestPref prefStore)
    if apiData.isNullish then
      ⟨errResp 500 "Server error", some prompt, recipeStore⟩
    else
      let recipeText := (nestedTextLookup apiData).orElse (.str "No recipe generated.")
      ⟨okRecipe recipeText, some prompt, recipeStore ++ [⟨ingList, recipeText⟩]⟩

/-- Predicate that `sub` occurs as a substring of `s`. -/
def ContainsStr (s sub : String) : Prop :=
  ∃ pre post, s = pre ++ sub ++ post

/-! ## Helper lemmas -/

lemma containsStr_intro (s pre mid post : String) (h : s = pre ++ mid ++ post) :
    ContainsStr s mid :=
  ⟨pre, post, h⟩

/-- Reduction of `/api/recipe` on a truthy array of ingredients and a non-nullish external
reply: the single reduction every recipe-route claim starts from. -/
lemma generate_valid_eq (recipeStore : List RecipeRecord) (prefStore : List PrefRecord)
    (ingList : List JSValue) (apiData : JSValue) (h : apiData.isNullish = false) :
    generate recipeStore prefStore (.arr ingList) apiData =
      ⟨okRecipe ((nestedTextLookup apiData).orElse (.str "No recipe generated.")),
        some (buildPrompt ingList (latestPref prefStore)),
        recipeStore ++
          [⟨ingList, (nestedTextLookup apiData).orElse (.str "No recipe generated.")⟩]⟩ := by
  simp [generate, JSValue.truthy, JSValue.isArray, JSValue.asArray, h]

/-! ## Claims -/

/-- Claim C1 (corrected): counterexample to the claim as stated. With one user
in the store and a syntactically malformed bearer token, `/api/update-email`
responds **500**, not 401 (`jwt.verify` throws and the catch-all answers
500); the store is indeed left unchanged. -/
theorem updateEmail_malformed_token_counterexample :
    (updateEmail [⟨1, "a@b.c", bcryptHash "pw" 0⟩] (some (Token.malformed "xyz"))
        (some "new@x.com") "secret" 0).1.status = 500 ∧
    (updateEmail [⟨1, "a@b.c", bcryptHash "pw" 0⟩] (some (Token.malformed "xyz"))
        (some "new@x.com") "secret" 0).1.status ≠ 401 ∧
    (updateEmail [⟨1, "a@b.c", bcryptHash "pw" 0⟩] (some (Token.malformed "xyz"))
        (some "new@x.com") "secret" 0).2 = [⟨1, "a@b.c", bcryptHash "pw" 0⟩] := by
  refine ⟨rfl, by decide, rfl⟩

/-- Claim C1 (amended): a request to `/api/update-email` with a *missing*
bearer token gets status 401, and one whose token fails verification
(malformed, wrong signature, or expired) gets status 500; in both cases the
user store is unchanged. -/
theorem updateEmail_bad_token_spec (store : List UserRec) (email : Option String)
    (secret : String) (now : Nat) :
    ((updateEmail store none email secret now).1.status = 401 ∧
      (updateEmail store none email secret now).2 = store) ∧
    ∀ t, jwtVerify t secret now = none →
      (updateEmail store (some t) email secret now).1.status = 500 ∧
      (updateEmail store (some t) email secret now).2 = store := by
  refine ⟨⟨rfl, rfl⟩, fun t ht => ?_⟩
  simp [updateEmail, ht, errResp]

/-- Witness for `updateEmail_bad_token_spec` at a malformed token. -/
theorem updateEmail_bad_token_spec_witness :
    jwtVerify (Token.malformed "zz") "s" 0 = none ∧
    (updateEmail [] (some (Token.malformed "zz")) (some "a@b") "s" 0).1.status = 500 ∧
    (updateEmail [] (some (Token.malformed "zz")) (some "a@b") "s" 0).2 = [] :=
  ⟨rfl, (updateEmail_bad_token_spec [] (some "a@b") "s" 0).2 (Token.malformed "zz") rfl⟩

/-- Claim C2 (confirmed): for any valid (string-list) ingredients body, if the
external reply is a non-nullish JSON value in which the nested
`output[0].content[0].text` lookup comes out `undefined` (a field missing at
any level), `/api/recipe` still answers 200/success with recipe text exactly
`"No recipe generated."` and appends a Recipe record with that text. -/
theorem generate_missing_text_fallback (recipeStore : List RecipeRecord)
    (prefStore : List PrefRecord) (l : List String) (apiData : JSValue)
    (hnn : apiData.isNullish = false) (hmiss : nestedTextLookup apiData = .undef) :
    (generate recipeStore prefStore (jsStrList l) apiData).resp.status = 200 ∧
    (generate recipeStore prefStore (jsStrList l) apiData).resp.success = true ∧
    (generate recipeStore prefStore (jsStrList l) apiData).resp.recipe =
      some (.str "No recipe generated.") ∧
    (generate recipeStore prefStore (jsStrList l) apiData).recipeStore =
      recipeStore ++ [⟨l.map .str, .str "No recipe generated."⟩] := by
  rw [jsStrList, generate_valid_eq recipeStore prefStore (l.map .str) apiData hnn]
  simp [hmiss, JSValue.orElse, JSValue.truthy, okRecipe]

/-- Witness for `generate_missing_text_fallback`: an external reply that is
an object with no `output` field at all. -/
theorem generate_missing_text_fallback_witness :
    JSValue.isNullish (.obj []) = false ∧ nestedTextLookup (.obj []) = .undef ∧
    (generate [] [] (jsStrList ["egg"]) (.obj [])).resp.recipe =
      some (.str "No recipe generated.") ∧
    (generate [] [] (jsStrList ["egg"]) (.obj [])).recipeStore =
      [⟨[.str "egg"], .str "No recipe generated."⟩] :=
  ⟨rfl, rfl,
    (generate_missing_text_fallback [] [] ["egg"] (.obj []) rfl rfl).2.2.1,
    (generate_missing_text_fallback [] [] ["egg"] (.obj []) rfl rfl).2.2.2⟩

/-- Claim C3 (confirmed): with an empty preference store,
`generate(["egg","flour"])` sends a prompt containing the literal substrings
`"Dietary: None"`, `"Equipment available: Any"`, `"$flexible"` and
`"Meal times: {}"`, and persists exactly one new Recipe record whose
ingredients equal `["egg","flour"]` (for any non-nullish external reply). -/
theorem generate_no_prefs_spec (recipeStore : List RecipeRecord) (apiData : JSValue)
    (hnn : apiData.isNullish = false) :
    (∃ P, (generate recipeStore [] (jsStrList ["egg", "flour"]) apiData).promptSent = some P ∧
      ContainsStr P "Dietary: None" ∧ ContainsStr P "Equipment available: Any" ∧
      ContainsStr P "$flexible" ∧ ContainsStr P "Meal times: \x7b\x7d") ∧
    ∃ r, (generate recipeStore [] (jsStrList ["egg", "flour"]) apiData).recipeStore =
        recipeStore ++ [r] ∧ r.ingredients = [JSValue.str "egg", JSValue.str "flour"] := by
  rw [show jsStrList ["egg", "flour"] = .arr [JSValue.str "egg", JSValue.str "flour"] from rfl,
    generate_valid_eq recipeStore [] [JSValue.str "egg", JSValue.str "flour"] apiData hnn]
  refine ⟨⟨"\nGenerate a recipe using these ingredients: egg, flour.\nConsider these preferences: \n- Dietary: None\n- Equipment available: Any\n- Weekly budget: $flexible\n- Cooking hours per week: flexible\n- Meal times: \x7b\x7d\n\nInclude a title, clear ingredients list, and step-by-step instructions.\n",
    rfl, ?_, ?_, ?_, ?_⟩,
    ⟨⟨[JSValue.str "egg", JSValue.str "flour"],
        (nestedTextLookup apiData).orElse (.str "No recipe generated.")⟩, rfl, rfl⟩⟩
  · exact containsStr_intro _ "\nGenerate a recipe using these ingredients: egg, flour.\nConsider these preferences: \n- " _
      "\n- Equipment available: Any\n- Weekly budget: $flexible\n- Cooking hours per week: flexible\n- Meal times: \x7b\x7d\n\nInclude a title, clear ingredients list, and step-by-step instructions.\n" rfl
  · exact containsStr_intro _ "\nGenerate a recipe using these ingredients: egg, flour.\nConsider these preferences: \n- Dietary: None\n- " _
      "\n- Weekly budget: $flexible\n- Cooking hours per week: flexible\n- Meal times: \x7b\x7d\n\nInclude a title, clear ingredients list, and step-by-step instructions.\n" rfl
  · exact containsStr_intro _ "\nGenerate a recipe using these ingredients: egg, flour.\nConsider these preferences: \n- Dietary: None\n- Equipment available: Any\n- Weekly budget: " _
      "\n- Cooking hours per week: flexible\n- Meal times: \x7b\x7d\n\nInclude a title, clear ingredients list, and step-by-step instructions.\n" rfl
  · exact containsStr_intro _ "\nGenerate a recipe using these ingredients: egg, flour.\nConsider these preferences: \n- Dietary: None\n- Equipment available: Any\n- Weekly budget: $flexible\n- Cooking hours per week: flexible\n- " _
      "\n\nInclude a title, clear ingredients list, and step-by-step instructions.\n" rfl

/-- Witness for `generate_no_prefs_spec` at the external reply `{}`. -/
theorem generate_no_prefs_spec_witness :
    JSValue.isNullish (.obj []) = false ∧
    ((∃ P, (generate [] [] (jsStrList ["egg", "flour"]) (.obj [])).promptSent = some P ∧
      ContainsStr P "Dietary: None" ∧ ContainsStr P "Equipment available: Any" ∧
      ContainsStr P "$flexible" ∧ ContainsStr P "Meal times: \x7b\x7d") ∧
    ∃ r, (generate [] [] (jsStrList ["egg", "flour"]) (.obj [])).recipeStore =
        [] ++ [r] ∧ r.ingredients = [JSValue.str "egg", JSValue.str "flour"]) :=
  ⟨rfl, generate_no_prefs_spec [] (.obj []) rfl⟩

/-- Claim C4 (confirmed): signup answers 400 without touching the store when
email or password is absent; answers 400 without creating a user when the
email is already present; and otherwise appends a user carrying the salted
bcrypt hash of the password and returns a token signed with the server
secret, bound to the fresh id, expiring exactly 7 days (604800 s) after
issuance. -/
theorem signup_spec (store : List UserRec) (email password : Option String)
    (freshId salt now : Nat) (secret : String) :
    (email = none ∨ password = none →
      (signup store email password freshId salt now secret).1.status = 400 ∧
      (signup store email password freshId salt now secret).2 = store) ∧
    (∀ e, email = some e → (∃ u ∈ store, u.email = e) →
      (signup store email password freshId salt now secret).1.status = 400 ∧
      (signup store email password freshId salt now secret).2 = store) ∧
    (∀ e p, email = some e → password = some p → e ≠ "" → p ≠ "" →
      (∀ u ∈ store, u.email ≠ e) →
      (signup store email password freshId salt now secret).2 =
        store ++ [⟨freshId, e, bcryptHash p salt⟩] ∧
      (signup store email password freshId salt now secret).1.token =
        some (Token.signed freshId secret now (now + 7 * 24 * 60 * 60)) ∧
      (signup store email password freshId salt now secret).1.status = 200) := by
  refine ⟨?_, ?_, ?_⟩
  · rintro (rfl | rfl) <;> simp [signup, strFalsy, errResp]
  · rintro e rfl ⟨u, hu, hue⟩
    by_cases hp : strFalsy password
    · simp [signup, hp, errResp]
    · have hfind : store.find? (fun v => v.email = e) ≠ none := by
        intro hnone
        exact absurd (by simpa using List.find?_eq_none.mp hnone u hu) (by simp [hue])
      rcases hfound : store.find? (fun v => v.email = e) with _ | u'
      · exact absurd hfound hfind
      · by_cases he : strFalsy (some e) <;>
          simp [signup, hp, he, hfound, errResp]
  · rintro e p rfl rfl he hp hnone
    have hfind : store.find? (fun v => v.email = e) = none :=
      List.find?_eq_none.mpr (fun u hu => by simpa using hnone u hu)
    simp [signup, strFalsy, he, hp, hfind, okToken, jwtSign]

/-- Witness for `signup_spec`: a fresh signup into an empty store. -/
theorem signup_spec_witness :
    (signup [] (some "a@b.c") (some "hunter2") 7 3 1000 "sec").2 =
      [⟨7, "a@b.c", bcryptHash "hunter2" 3⟩] ∧
    (signup [] (some "a@b.c") (some "hunter2") 7 3 1000 "sec").1.token =
      some (Token.signed 7 "sec" 1000 (1000 + 7 * 24 * 60 * 60)) ∧
    (signup [] (some "a@b.c") (some "hunter2") 7 3 1000 "sec").1.status = 200 :=
  (signup_spec [] (some "a@b.c") (some "hunter2") 7 3 1000 "sec").2.2 "a@b.c" "hunter2"
    rfl rfl (by decide) (by decide) (by simp)

/-- Claim C5 (confirmed): a login attempt with an unknown email and one with a
known email but failing hash comparison produce the *identical* response
(status and body), namely the 400 "Invalid credentials" reply, so the caller
cannot tell the two causes apart. -/
theorem login_indistinguishable (store : List UserRec) (e₁ p₁ e₂ p₂ : String)
    (now : Nat) (secret : String) (u : UserRec)
    (he₁ : e₁ ≠ "") (hp₁ : p₁ ≠ "") (he₂ : e₂ ≠ "") (hp₂ : p₂ ≠ "")
    (hunknown : ∀ v ∈ store, v.email ≠ e₁)
    (hknown : store.find? (fun v => v.email = e₂) = some u)
    (hbad : bcryptCompare p₂ u.passwordHash = false) :
    login store (some e₁) (some p₁) now secret =
      login store (some e₂) (some p₂) now secret ∧
    login store (some e₁) (some p₁) now secret = errResp 400 "Invalid credentials" := by
  have hfind₁ : store.find? (fun v => v.email = e₁) = none :=
    List.find?_eq_none.mpr (fun v hv => by simpa using hunknown v hv)
  constructor <;>
    simp [login, strFalsy, he₁, hp₁, he₂, hp₂, hfind₁, hknown, hbad]

/-- Witness for `login_indistinguishable`: one stored user, an unknown email
and a wrong password for the known email. -/
theorem login_indistinguishable_witness :
    login [⟨1, "a@b.c", bcryptHash "pw" 3⟩] (some "c@d.e") (some "x") 0 "s" =
      login [⟨1, "a@b.c", bcryptHash "pw" 3⟩] (some "a@b.c") (some "wrong") 0 "s" ∧
    login [⟨1, "a@b.c", bcryptHash "pw" 3⟩] (some "c@d.e") (some "x") 0 "s" =
      errResp 400 "Invalid credentials" :=
  login_indistinguishable [⟨1, "a@b.c", bcryptHash "pw" 3⟩] "c@d.e" "x" "a@b.c" "wrong"
    0 "s" ⟨1, "a@b.c", bcryptHash "pw" 3⟩ (by decide) (by decide) (by decide) (by decide)
    (by decide) (by decide) (by decide)

/-- Claim C6 (corrected): counterexample to the claim as stated. The conflict
check (`User.findOne({email})`) does not exclude the caller: with a single
user (id 1) owning `"a@b.c"`, a valid token for that very user, and new email
`"a@b.c"` — an email belonging to *no other user* — the route answers 400
"Email already in use" instead of overwriting as the claim predicts. -/
theorem updateEmail_self_conflict_counterexample :
    jwtVerify (jwtSign 1 "s" 0) "s" 1 = some 1 ∧
    (∀ v ∈ [(⟨1, "a@b.c", bcryptHash "pw" 0⟩ : UserRec)], v.email = "a@b.c" → v.id = 1) ∧
    (updateEmail [⟨1, "a@b.c", bcryptHash "pw" 0⟩] (some (jwtSign 1 "s" 0))
        (some "a@b.c") "s" 1).1.status = 400 ∧
    (updateEmail [⟨1, "a@b.c", bcryptHash "pw" 0⟩] (some (jwtSign 1 "s" 0))
        (some "a@b.c") "s" 1).1.message = some "Email already in use" ∧
    (updateEmail [⟨1, "a@b.c", bcryptHash "pw" 0⟩] (some (jwtSign 1 "s" 0))
        (some "a@b.c") "s" 1).1.success = false := by
  refine ⟨rfl, by decide, rfl, rfl, rfl⟩

/-- Claim C6 (amended): given a valid token, `/api/update-email` fails with a
validation 400 exactly when the new email lacks an `"@"`; fails with a
conflict 400 exactly when the new email already belongs to *any* existing
user — including the caller themselves; and otherwise overwrites the
caller's email. -/
theorem updateEmail_spec (store : List UserRec) (tok : Token) (secret : String)
    (now uid : Nat) (e : String) (hver : jwtVerify tok secret now = some uid) :
    (¬ e.data.contains '@' = true →
      updateEmail store (some tok) (some e) secret now =
        (errResp 400 "Invalid email", store)) ∧
    (e.data.contains '@' = true → (∃ u ∈ store, u.email = e) →
      updateEmail store (some tok) (some e) secret now =
        (errResp 400 "Email already in use", store)) ∧
    (e.data.contains '@' = true → (∀ u ∈ store, u.email ≠ e) →
      updateEmail store (some tok) (some e) secret now =
        (okMsg "Email updated successfully",
          store.map (fun u => if u.id = uid then { u with email := e } else u))) := by
  refine ⟨?_, ?_, ?_⟩
  · intro hat
    have hat' : '@' ∉ e.data := by simpa using hat
    by_cases he0 : e = ""
    · simp [updateEmail, hver, emailInvalid, he0]
    · simp [updateEmail, hver, emailInvalid, he0, hat']
  · rintro hat ⟨u, hu, hue⟩
    have hat' : '@' ∈ e.data := by simpa using hat
    have hne : e ≠ "" := by
      intro h; rw [h] at hat; exact absurd hat (by decide)
    have hfind : store.find? (fun v => v.email = e) ≠ none := by
      intro hnone
      exact absurd (by simpa using List.find?_eq_none.mp hnone u hu) (by simp [hue])
    rcases hfound : store.find? (fun v => v.email = e) with _ | u'
    · exact absurd hfound hfind
    · simp [updateEmail, hver, emailInvalid, hne, hat', hfound]
  · intro hat hnone
    have hat' : '@' ∈ e.data := by simpa using hat
    have hne : e ≠ "" := by
      intro h; rw [h] at hat; exact absurd hat (by decide)
    have hfind : store.find? (fun v => v.email = e) = none :=
      List.find?_eq_none.mpr (fun u hu => by simpa using hnone u hu)
    simp [updateEmail, hver, emailInvalid, hne, hat', hfind]

/-- Witness for `updateEmail_spec`: a valid token whose holder changes their
email to an unused address. -/
theorem updateEmail_spec_witness :
    jwtVerify (jwtSign 1 "s" 0) "s" 1 = some 1 ∧
    ("new@x.y".data.contains '@' = true) ∧
    updateEmail [⟨1, "a@b.c", bcryptHash "pw" 0⟩] (some (jwtSign 1 "s" 0))
        (some "new@x.y") "s" 1 =
      (okMsg "Email updated successfully", [⟨1, "new@x.y", bcryptHash "pw" 0⟩]) :=
  ⟨rfl, by decide,
    by
      have h := (updateEmail_spec [⟨1, "a@b.c", bcryptHash "pw" 0⟩] (jwtSign 1 "s" 0)
        "s" 1 1 "new@x.y" rfl).2.2 (by decide) (by decide)
      simpa using h⟩

/-- The shapes the preference body fields take per the JSON contract: an
array of strings or an absent field, resp. a number or an absent field. -/
def StrListOrAbsent (v : JSValue) : Prop :=
  v = JSValue.undef ∨ ∃ l : List String, v = jsStrList l

/-- A numeric, null, or absent body field (the three values a JSON body can
carry in a `Number`-typed slot, plus absence). -/
def NumOrNullish (v : JSValue) : Prop :=
  v = JSValue.undef ∨ v = JSValue.nullv ∨ ∃ n : Int, v = .num n

/-- Claim C7 (confirmed): over schema-shaped bodies, `/api/preferences` fails
(400, store untouched) exactly when `dietary` or `equipment` is absent or
`budget`/`cookingHours` is null or absent — zero numbers and empty lists
pass — and every successful submission appends exactly one new record,
leaving all previously stored records unchanged. -/
theorem savePreferences_spec (store : List PrefRecord)
    (d e b c m : JSValue) (now : Nat)
    (hd : StrListOrAbsent d) (he : StrListOrAbsent e)
    (hb : NumOrNullish b) (hc : NumOrNullish c) :
    ((savePreferences store d e b c m now =
        (errResp 400 "Invalid preferences data", store)) ↔
      (d = .undef ∨ e = .undef ∨ b = .undef ∨ b = .nullv ∨ c = .undef ∨ c = .nullv)) ∧
    (¬ (d = .undef ∨ e = .undef ∨ b = .undef ∨ b = .nullv ∨ c = .undef ∨ c = .nullv) →
      savePreferences store d e b c m now =
        (okMsg "Preferences saved!", store ++ [⟨d, e, b, c, m, now⟩])) := by
  rcases hd with rfl | ⟨ld, rfl⟩ <;> rcases he with rfl | ⟨le, rfl⟩ <;>
    rcases hb with rfl | rfl | ⟨nb, rfl⟩ <;> rcases hc with rfl | rfl | ⟨nc, rfl⟩ <;>
    simp [savePreferences, jsStrList, JSValue.truthy, JSValue.eqNull,
      errResp, okMsg, Prod.ext_iff, ApiResponse.mk.injEq]

/-- Witness for `savePreferences_spec`: empty lists and zero numbers are
accepted and appended as a new record. -/
theorem savePreferences_spec_witness :
    savePreferences [] (jsStrList []) (jsStrList []) (.num 0) (.num 0) (.obj []) 5 =
      (okMsg "Preferences saved!",
        [⟨jsStrList [], jsStrList [], .num 0, .num 0, .obj [], 5⟩]) :=
  (savePreferences_spec [] (jsStrList []) (jsStrList []) (.num 0) (.num 0) (.obj []) 5
      (Or.inr ⟨[], rfl⟩) (Or.inr ⟨[], rfl⟩) (Or.inr (Or.inr ⟨0, rfl⟩))
      (Or.inr (Or.inr ⟨0, rfl⟩))).2
    (by simp [jsStrList])

/-- Claim C8 (confirmed): with a valid token, `/api/update-password` answers
400 for every password shorter than 6 characters, leaving the user store
(hence the caller's stored `passwordHash`) untouched and computing no bcrypt
hash; for a password of length ≥ 6 it computes the salted hash and
overwrites the caller's `passwordHash` with it. -/
theorem updatePassword_spec (store : List UserRec) (tok : Token) (secret : String)
    (now salt uid : Nat) (p : String) (hver : jwtVerify tok secret now = some uid) :
    (p.length < 6 →
      (updatePassword store (some tok) (some p) secret now salt).resp.status = 400 ∧
      (updatePassword store (some tok) (some p) secret now salt).store = store ∧
      (updatePassword store (some tok) (some p) secret now salt).hashComputed = false) ∧
    (6 ≤ p.length →
      (updatePassword store (some tok) (some p) secret now salt).resp =
        okMsg "Password updated successfully" ∧
      (updatePassword store (some tok) (some p) secret now salt).store =
        store.map (fun u =>
          if u.id = uid then { u with passwordHash := bcryptHash p salt } else u) ∧
      (updatePassword store (some tok) (some p) secret now salt).hashComputed = true) := by
  constructor
  · intro hshort
    simp [updatePassword, hver, strFalsy, hshort, errResp]
  · intro hlong
    have hne : p ≠ "" := by
      intro h
      rw [h] at hlong
      exact absurd hlong (by decide)
    simp [updatePassword, hver, strFalsy, hne, Nat.not_lt.mpr hlong]

/-- Witness for `updatePassword_spec`: a 2-character password is rejected
with no mutation and no hash, and a 6-character one overwrites the hash. -/
theorem updatePassword_spec_witness :
    ((updatePassword [⟨1, "a@b.c", bcryptHash "old" 0⟩] (some (jwtSign 1 "s" 0))
        (some "ab") "s" 1 9).resp.status = 400 ∧
      (updatePassword [⟨1, "a@b.c", bcryptHash "old" 0⟩] (some (jwtSign 1 "s" 0))
        (some "ab") "s" 1 9).store = [⟨1, "a@b.c", bcryptHash "old" 0⟩] ∧
      (updatePassword [⟨1, "a@b.c", bcryptHash "old" 0⟩] (some (jwtSign 1 "s" 0))
        (some "ab") "s" 1 9).hashComputed = false) ∧
    (updatePassword [⟨1, "a@b.c", bcryptHash "old" 0⟩] (some (jwtSign 1 "s" 0))
        (some "abcdef") "s" 1 9).store = [⟨1, "a@b.c", bcryptHash "abcdef" 9⟩] :=
  ⟨(updatePassword_spec [⟨1, "a@b.c", bcryptHash "old" 0⟩] (jwtSign 1 "s" 0) "s" 1 9 1
      "ab" rfl).1 (by decide),
    by
      have h := (updatePassword_spec [⟨1, "a@b.c", bcryptHash "old" 0⟩] (jwtSign 1 "s" 0)
        "s" 1 9 1 "abcdef" rfl).2 (by decide)
      simpa using h.2.1⟩

/-- Claim C9 (confirmed): even with a stored PreferenceSet, each falsy field
renders its no-preference placeholder in the prompt: budget `0` renders
`$flexible`, cookingHours `0` renders `flexible`, an empty dietary list
renders `None`, an empty equipment list renders `Any` — while
`savePreferences` accepts exactly these values (0 and empty lists) as
valid. -/
theorem prompt_falsy_field_fallbacks (ing : List JSValue) (p : PrefRecord)
    (store : List PrefRecord) (now : Nat) :
    (p.budget = .num 0 → budgetSeg (some p) = "flexible" ∧
      ContainsStr (buildPrompt ing (some p)) "Weekly budget: $flexible") ∧
    (p.cookingHours = .num 0 → hoursSeg (some p) = "flexible" ∧
      ContainsStr (buildPrompt ing (some p)) "Cooking hours per week: flexible") ∧
    (p.dietary = .arr [] → dietarySeg (some p) = "None" ∧
      ContainsStr (buildPrompt ing (some p)) "Dietary: None") ∧
    (p.equipment = .arr [] → equipmentSeg (some p) = "Any" ∧
      ContainsStr (buildPrompt ing (some p)) "Equipment available: Any") ∧
    savePreferences store (.arr []) (.arr []) (.num 0) (.num 0) (.obj []) now =
      (okMsg "Preferences saved!",
        store ++ [⟨.arr [], .arr [], .num 0, .num 0, .obj [], now⟩]) := by
  refine ⟨?_, ?_, ?_, ?_, ?_⟩
  · intro hb
    have hseg : budgetSeg (some p) = "flexible" := by
      simp [budgetSeg, valFallback, hb, JSValue.truthy]
    refine ⟨hseg, containsStr_intro _
      ("\nGenerate a recipe using these ingredients: " ++ joinComma ing ++
        ".\nConsider these preferences: \n- Dietary: " ++ dietarySeg (some p) ++
        "\n- Equipment available: " ++ equipmentSeg (some p) ++ "\n- ")  _
      ("\n- Cooking hours per week: " ++ hoursSeg (some p) ++
        "\n- Meal times: " ++ mealTimesSeg (some p) ++
        "\n\nInclude a title, clear ingredients list, and step-by-step instructions.\n") ?_⟩
    simp only [buildPrompt, hseg]
    rw [show ("\n- Weekly budget: $" : String) = "\n- " ++ "Weekly budget: $" from rfl]
    rw [show ("Weekly budget: $flexible" : String) = "Weekly budget: $" ++ "flexible" from rfl]
    simp only [String.append_assoc]
  · intro hc
    have hseg : hoursSeg (some p) = "flexible" := by
      simp [hoursSeg, valFallback, hc, JSValue.truthy]
    refine ⟨hseg, containsStr_intro _
      ("\nGenerate a recipe using these ingredients: " ++ joinComma ing ++
        ".\nConsider these preferences: \n- Dietary: " ++ dietarySeg (some p) ++
        "\n- Equipment available: " ++ equipmentSeg (some p) ++
        "\n- Weekly budget: $" ++ budgetSeg (some p) ++ "\n- ")  _
      ("\n- Meal times: " ++ mealTimesSeg (some p) ++
        "\n\nInclude a title, clear ingredients list, and step-by-step instructions.\n") ?_⟩
    simp only [buildPrompt, hseg]
    rw [show ("\n- Cooking hours per week: " : String) =
      "\n- " ++ "Cooking hours per week: " from rfl]
    rw [show ("Cooking hours per week: flexible" : String) =
      "Cooking hours per week: " ++ "flexible" from rfl]
    simp only [String.append_assoc]
  · intro hd
    have hseg : dietarySeg (some p) = "None" := by
      simp [dietarySeg, chainJoin, hd, strFallback, joinComma,
        show String.intercalate ", " ([] : List String) = "" from rfl]
    refine ⟨hseg, containsStr_intro _
      ("\nGenerate a recipe using these ingredients: " ++ joinComma ing ++
        ".\nConsider these preferences: \n- ")  _
      ("\n- Equipment available: " ++ equipmentSeg (some p) ++
        "\n- Weekly budget: $" ++ budgetSeg (some p) ++
        "\n- Cooking hours per week: " ++ hoursSeg (some p) ++
        "\n- Meal times: " ++ mealTimesSeg (some p) ++
        "\n\nInclude a title, clear ingredients list, and step-by-step instructions.\n") ?_⟩
    simp only [buildPrompt, hseg]
    rw [show (".\nConsider these preferences: \n- Dietary: " : String) =
      ".\nConsider these preferences: \n- " ++ "Dietary: " from rfl]
    rw [show ("Dietary: None" : String) = "Dietary: " ++ "None" from rfl]
    simp only [String.append_assoc]
  · intro he
    have hseg : equipmentSeg (some p) = "Any" := by
      simp [equipmentSeg, chainJoin, he, strFallback, joinComma,
        show String.intercalate ", " ([] : List String) = "" from rfl]
    refine ⟨hseg, containsStr_intro _
      ("\nGenerate a recipe using these ingredients: " ++ joinComma ing ++
        ".\nConsider these preferences: \n- Dietary: " ++ dietarySeg (some p) ++ "\n- ")  _
      ("\n- Weekly budget: $" ++ budgetSeg (some p) ++
        "\n- Cooking hours per week: " ++ hoursSeg (some p) ++
        "\n- Meal times: " ++ mealTimesSeg (some p) ++
        "\n\nInclude a title, clear ingredients list, and step-by-step instructions.\n") ?_⟩
    simp only [buildPrompt, hseg]
    rw [show ("\n- Equipment available: " : String) =
      "\n- " ++ "Equipment available: " from rfl]
    rw [show ("Equipment available: Any" : String) =
      "Equipment available: " ++ "Any" from rfl]
    simp only [String.append_assoc]
  · simp [savePreferences, JSValue.truthy, JSValue.eqNull]

/-- Witness for `prompt_falsy_field_fallbacks` at a record whose fields are
all falsy. -/
theorem prompt_falsy_field_fallbacks_witness :
    (budgetSeg (some ⟨.arr [], .arr [], .num 0, .num 0, .obj [], 0⟩) = "flexible" ∧
      ContainsStr (buildPrompt [] (some ⟨.arr [], .arr [], .num 0, .num 0, .obj [], 0⟩))
        "Weekly budget: $flexible") ∧
    (dietarySeg (some ⟨.arr [], .arr [], .num 0, .num 0, .obj [], 0⟩) = "None" ∧
      ContainsStr (buildPrompt [] (some ⟨.arr [], .arr [], .num 0, .num 0, .obj [], 0⟩))
        "Dietary: None") ∧
    savePreferences [] (.arr []) (.arr []) (.num 0) (.num 0) (.obj []) 0 =
      (okMsg "Preferences saved!",
        [⟨.arr [], .arr [], .num 0, .num 0, .obj [], 0⟩]) :=
  ⟨(prompt_falsy_field_fallbacks [] ⟨.arr [], .arr [], .num 0, .num 0, .obj [], 0⟩ [] 0).1
      rfl,
    ((prompt_falsy_field_fallbacks [] ⟨.arr [], .arr [], .num 0, .num 0, .obj [], 0⟩ [] 0).2.2.1
      rfl),
    ((prompt_falsy_field_fallbacks [] ⟨.arr [], .arr [], .num 0, .num 0, .obj [], 0⟩ [] 0).2.2.2.2)⟩

/-- Claim C10 (confirmed): `/api/recipe` accepts an empty ingredients array:
validation passes (the call succeeds with 200), the prompt's ingredients
segment is the empty string (the prompt continues directly with
`".\nConsider these preferences:"` after the colon-space), and a Recipe
record with empty ingredients is persisted. -/
theorem generate_empty_ingredients (recipeStore : List RecipeRecord)
    (prefStore : List PrefRecord) (apiData : JSValue)
    (hnn : apiData.isNullish = false) :
    (generate recipeStore prefStore (.arr []) apiData).resp.status = 200 ∧
    (generate recipeStore prefStore (.arr []) apiData).resp.success = true ∧
    (∃ t, (generate recipeStore prefStore (.arr []) apiData).promptSent =
      some ("\nGenerate a recipe using these ingredients: .\nConsider these preferences: \n- Dietary: " ++ t)) ∧
    ∃ r, (generate recipeStore prefStore (.arr []) apiData).recipeStore =
        recipeStore ++ [r] ∧ r.ingredients = ([] : List JSValue) := by
  rw [generate_valid_eq recipeStore prefStore [] apiData hnn]
  refine ⟨rfl, rfl,
    ⟨dietarySeg (latestPref prefStore) ++ "\n- Equipment available: " ++
      equipmentSeg (latestPref prefStore) ++ "\n- Weekly budget: $" ++
      budgetSeg (latestPref prefStore) ++ "\n- Cooking hours per week: " ++
      hoursSeg (latestPref prefStore) ++ "\n- Meal times: " ++
      mealTimesSeg (latestPref prefStore) ++
      "\n\nInclude a title, clear ingredients list, and step-by-step instructions.\n", ?_⟩,
    ⟨⟨[], (nestedTextLookup apiData).orElse (.str "No recipe generated.")⟩, rfl, rfl⟩⟩
  have h : buildPrompt [] (latestPref prefStore) =
      "\nGenerate a recipe using these ingredients: .\nConsider these preferences: \n- Dietary: " ++
        (dietarySeg (latestPref prefStore) ++ "\n- Equipment available: " ++
          equipmentSeg (latestPref prefStore) ++ "\n- Weekly budget: $" ++
          budgetSeg (latestPref prefStore) ++ "\n- Cooking hours per week: " ++
          hoursSeg (latestPref prefStore) ++ "\n- Meal times: " ++
          mealTimesSeg (latestPref prefStore) ++
          "\n\nInclude a title, clear ingredients list, and step-by-step instructions.\n") := by
    simp only [buildPrompt]
    rw [show joinComma ([] : List JSValue) = "" from rfl]
    rw [show (("\nGenerate a recipe using these ingredients: " : String) ++ "") ++
        ".\nConsider these preferences: \n- Dietary: " =
      "\nGenerate a recipe using these ingredients: .\nConsider these preferences: \n- Dietary: " from rfl]
    simp only [String.append_assoc]
  rw [h]

/-- Witness for `generate_empty_ingredients` at the external reply `{}`. -/
theorem generate_empty_ingredients_witness :
    JSValue.isNullish (.obj []) = false ∧
    (generate [] [] (.arr []) (.obj [])).resp.status = 200 ∧
    (∃ r, (generate [] [] (.arr []) (.obj [])).recipeStore = [] ++ [r] ∧
      r.ingredients = ([] : List JSValue)) :=
  ⟨rfl, (generate_empty_ingredients [] [] (.obj []) rfl).1,
    (generate_empty_ingredients [] [] (.obj []) rfl).2.2.2⟩

end Ziplan
